import Mathlib

/-!
Verification of the Mergington High School activities service
(`src/app.py`): a SQLite-backed CRUD service with three endpoints
(list activities, signup, unregister) and a seeding init routine.

The database state is embedded shallowly: the `activities` table is a
list of `Activity` rows and the `participants` table a list of
`Enrollment` rows, both in insertion (rowid) order.  SQL statements
become list operations: `SELECT ... WHERE` is `List.find?`/`List.filter`,
`INSERT` appends, `DELETE ... WHERE` filters, `INSERT OR IGNORE` is a
guarded append.  A raised `HTTPException` becomes the `Except.error`
branch; the success branch carries the post-commit state and the
returned message.
-/

/-- A row of the `activities` table (the autoincrement `id` column is
never consulted by the service and is omitted). -/
structure Activity where
  name : String
  description : String
  schedule : String
  max_participants : Nat
deriving DecidableEq, Repr

/-- A row of the `participants` table: one (activity_name, email)
enrollment (the autoincrement `id` column is omitted). -/
structure Enrollment where
  activity_name : String
  email : String
deriving DecidableEq, Repr

/-- The persistent store: both tables, rows in insertion order. -/
structure DBState where
  activities : List Activity
  participants : List Enrollment
deriving DecidableEq, Repr

/-- A FastAPI `HTTPException` as raised by the service: status code and
detail string. -/
structure HTTPError where
  status_code : Nat
  detail : String
deriving DecidableEq, Repr

/-- The lookup `SELECT * FROM activities WHERE name = ?`: a row or nothing. -/
def findActivity (s : DBState) (activity_name : String) : Option Activity :=
  s.activities.find? fun a => a.name == activity_name

/-- The check `SELECT 1 FROM participants WHERE activity_name = ? AND email = ?`
viewed as a Boolean existence check. -/
def isEnrolled (s : DBState) (activity_name email : String) : Bool :=
  s.participants.any fun p => p.activity_name == activity_name && p.email == email

/-- Whether an activity row with the given name exists. -/
def activityExists (s : DBState) (activity_name : String) : Bool :=
  s.activities.any fun a => a.name == activity_name

/-- The handler `signup_for_activity` (POST /activities/.../signup): 404 when the
activity is unknown, 400 when the pair is already enrolled, otherwise
insert the row, commit and return the confirmation message. -/
def signup_for_activity (s : DBState) (activity_name email : String) :
    Except HTTPError (DBState × String) :=
  match findActivity s activity_name with
  | none => .error ⟨404, "Activity not found"⟩
  | some _ =>
    if isEnrolled s activity_name email then
      .error ⟨400, "Student is already signed up"⟩
    else
      .ok (⟨s.activities, s.participants ++ [⟨activity_name, email⟩]⟩,
           "Signed up " ++ email ++ " for " ++ activity_name)

/-- The handler `unregister_from_activity` (DELETE /activities/.../unregister): 404
when the activity is unknown, 400 when the pair is not enrolled,
otherwise delete the matching row(s), commit and return the message. -/
def unregister_from_activity (s : DBState) (activity_name email : String) :
    Except HTTPError (DBState × String) :=
  match findActivity s activity_name with
  | none => .error ⟨404, "Activity not found"⟩
  | some _ =>
    if isEnrolled s activity_name email then
      .ok (⟨s.activities,
            s.participants.filter fun p =>
              !(p.activity_name == activity_name && p.email == email)⟩,
           "Unregistered " ++ email ++ " from " ++ activity_name)
    else
      .error ⟨400, "Student is not signed up for this activity"⟩

/-- The record `get_activities` builds per activity (from
`activity_row_to_dict` plus the per-activity participants query). -/
structure ActivityView where
  name : String
  description : String
  schedule : String
  max_participants : Nat
  participants : List String
deriving DecidableEq, Repr

/-- The handler `get_activities` (GET /activities): for each activity row, in table
order, the view record keyed by name, with participants read by
`SELECT email FROM participants WHERE activity_name = ?` in insertion
order. -/
def get_activities (s : DBState) : List (String × ActivityView) :=
  s.activities.map fun a =>
    (a.name,
     ⟨a.name, a.description, a.schedule, a.max_participants,
      (s.participants.filter fun p => p.activity_name == a.name).map
        Enrollment.email⟩)

/-- The statement `INSERT OR IGNORE INTO participants`: append unless the UNIQUE
(activity_name, email) constraint already holds a matching row. -/
def insertOrIgnore (ps : List Enrollment) (e : Enrollment) : List Enrollment :=
  if ps.any fun p => p.activity_name == e.activity_name && p.email == e.email then
    ps
  else
    ps ++ [e]

/-- The literal seed dataset of `init_db`, in the source's insertion
order: each activity row with its initial participant emails. -/
def seed_activities : List (Activity × List String) :=
  [(⟨"Chess Club",
     "Learn strategies and compete in chess tournaments",
     "Fridays, 3:30 PM - 5:00 PM", 12⟩,
    ["michael@mergington.edu", "daniel@mergington.edu"]),
   (⟨"Programming Class",
     "Learn programming fundamentals and build software projects",
     "Tuesdays and Thursdays, 3:30 PM - 4:30 PM", 20⟩,
    ["emma@mergington.edu", "sophia@mergington.edu"]),
   (⟨"Gym Class",
     "Physical education and sports activities",
     "Mondays, Wednesdays, Fridays, 2:00 PM - 3:00 PM", 30⟩,
    ["john@mergington.edu", "olivia@mergington.edu"]),
   (⟨"Soccer Team",
     "Join the school soccer team and compete in matches",
     "Tuesdays and Thursdays, 4:00 PM - 5:30 PM", 22⟩,
    ["liam@mergington.edu", "noah@mergington.edu"]),
   (⟨"Basketball Team",
     "Practice and play basketball with the school team",
     "Wednesdays and Fridays, 3:30 PM - 5:00 PM", 15⟩,
    ["ava@mergington.edu", "mia@mergington.edu"]),
   (⟨"Art Club",
     "Explore your creativity through painting and drawing",
     "Thursdays, 3:30 PM - 5:00 PM", 15⟩,
    ["amelia@mergington.edu", "harper@mergington.edu"]),
   (⟨"Drama Club",
     "Act, direct, and produce plays and performances",
     "Mondays and Wednesdays, 4:00 PM - 5:30 PM", 20⟩,
    ["ella@mergington.edu", "scarlett@mergington.edu"]),
   (⟨"Math Club",
     "Solve challenging problems and participate in math competitions",
     "Tuesdays, 3:30 PM - 4:30 PM", 10⟩,
    ["james@mergington.edu", "benjamin@mergington.edu"]),
   (⟨"Debate Team",
     "Develop public speaking and argumentation skills",
     "Fridays, 4:00 PM - 5:30 PM", 12⟩,
    ["charlotte@mergington.edu", "henry@mergington.edu"])]

/-- Insert one seed entry: the activity row, then its participant rows
with the ignore-on-duplicate policy. -/
def seedStep (st : DBState) (entry : Activity × List String) : DBState :=
  ⟨st.activities ++ [entry.1],
   entry.2.foldl (fun ps em => insertOrIgnore ps ⟨entry.1.name, em⟩)
     st.participants⟩

/-- The routine `init_db`: tables are created if absent (schema is implicit in the
state type); the literal dataset is seeded only when the `activities`
table is empty. -/
def init_db (s : DBState) : DBState :=
  if s.activities.isEmpty then seed_activities.foldl seedStep s else s

/-- The state after a signup call: the new committed state on success,
the unchanged state when the call raises. -/
def runSignup (s : DBState) (activity_name email : String) : DBState :=
  match signup_for_activity s activity_name email with
  | .ok r => r.1
  | .error _ => s

/-- The state after an unregister call: the new committed state on
success, the unchanged state when the call raises. -/
def runUnregister (s : DBState) (activity_name email : String) : DBState :=
  match unregister_from_activity s activity_name email with
  | .ok r => r.1
  | .error _ => s

/-- Whether a service call raised an `HTTPException`. -/
def isErr {ε α : Type} : Except ε α → Bool
  | .error _ => true
  | .ok _ => false

/-- The (activity_name, email) key of an enrollment row. -/
def enrollKey (p : Enrollment) : String × String :=
  (p.activity_name, p.email)

/-- The uniqueness invariant of the `participants` table:
UNIQUE(activity_name, email) — the list of (activity_name, email)
pairs has no duplicate. -/
def PairUnique (s : DBState) : Prop :=
  (s.participants.map fun p => (p.activity_name, p.email)).Nodup

/-- States reachable from the empty store (freshly created tables) by
the service's operations; `get_activities` is read-only and takes no
step. -/
inductive Reachable : DBState → Prop where
  | empty : Reachable ⟨[], []⟩
  | init {s : DBState} : Reachable s → Reachable (init_db s)
  | signup {s : DBState} (activity_name email : String) :
      Reachable s → Reachable (runSignup s activity_name email)
  | unregister {s : DBState} (activity_name email : String) :
      Reachable s → Reachable (runUnregister s activity_name email)

/-- A small concrete store used to instantiate theorems with
hypotheses: one activity of capacity 1 with one enrolled student. -/
def demoState : DBState :=
  ⟨[⟨"Chess Club", "chess", "Fridays", 1⟩],
   [⟨"Chess Club", "michael@mergington.edu"⟩]⟩

-- Basic sanity checks of the embedding on concrete inputs.
example :
    signup_for_activity demoState "Chess Club" "new@mergington.edu" =
      .ok (⟨demoState.activities,
            demoState.participants ++ [⟨"Chess Club", "new@mergington.edu"⟩]⟩,
           "Signed up new@mergington.edu for Chess Club") := by rfl

example :
    signup_for_activity demoState "Robotics" "new@mergington.edu" =
      .error ⟨404, "Activity not found"⟩ := by rfl

example :
    unregister_from_activity demoState "Chess Club" "nobody@mergington.edu" =
      .error ⟨400, "Student is not signed up for this activity"⟩ := by rfl

/-- The service's existence check for an activity name agrees with the
lookup `SELECT` statement finding a row. -/
theorem activityExists_iff_find (s : DBState) (activity_name : String) :
    activityExists s activity_name = true ↔
      findActivity s activity_name ≠ none := by
  simp [activityExists, findActivity, List.any_eq_true, Option.ne_none_iff_isSome,
    List.find?_isSome]

/-- When the existence check fails, the activity lookup returns no row. -/
theorem findActivity_none (s : DBState) (activity_name : String)
    (h : activityExists s activity_name = false) :
    findActivity s activity_name = none := by
  by_contra hne
  have := (activityExists_iff_find s activity_name).mpr hne
  rw [h] at this
  exact Bool.false_ne_true this

/-- When the existence check succeeds, the activity lookup returns a row. -/
theorem findActivity_some (s : DBState) (activity_name : String)
    (h : activityExists s activity_name = true) :
    ∃ a, findActivity s activity_name = some a :=
  Option.ne_none_iff_exists'.mp ((activityExists_iff_find s activity_name).mp h)

/-- Signup on an unknown activity raises 404. -/
theorem signup_of_absent (s : DBState) (activity_name email : String)
    (h : activityExists s activity_name = false) :
    signup_for_activity s activity_name email =
      .error ⟨404, "Activity not found"⟩ := by
  simp [signup_for_activity, findActivity_none s activity_name h]

/-- Signup on an already-enrolled pair raises 400. -/
theorem signup_of_enrolled (s : DBState) (activity_name email : String)
    (h : activityExists s activity_name = true)
    (he : isEnrolled s activity_name email = true) :
    signup_for_activity s activity_name email =
      .error ⟨400, "Student is already signed up"⟩ := by
  obtain ⟨a, hf⟩ := findActivity_some s activity_name h
  simp [signup_for_activity, hf, he]

/-- Signup on a fresh pair of an existing activity appends the row and
returns the confirmation message. -/
theorem signup_of_fresh (s : DBState) (activity_name email : String)
    (h : activityExists s activity_name = true)
    (he : isEnrolled s activity_name email = false) :
    signup_for_activity s activity_name email =
      .ok (⟨s.activities, s.participants ++ [⟨activity_name, email⟩]⟩,
           "Signed up " ++ email ++ " for " ++ activity_name) := by
  obtain ⟨a, hf⟩ := findActivity_some s activity_name h
  simp [signup_for_activity, hf, he]

/-- Unregister of an enrolled pair deletes the matching rows and
returns the confirmation message. -/
theorem unregister_of_enrolled (s : DBState) (activity_name email : String)
    (h : activityExists s activity_name = true)
    (he : isEnrolled s activity_name email = true) :
    unregister_from_activity s activity_name email =
      .ok (⟨s.activities,
            s.participants.filter fun p =>
              !(p.activity_name == activity_name && p.email == email)⟩,
           "Unregistered " ++ email ++ " from " ++ activity_name) := by
  obtain ⟨a, hf⟩ := findActivity_some s activity_name h
  simp [unregister_from_activity, hf, he]

/-- Claim C1: `signup_for_activity` fails with 404 "Activity not found"
when no activity with the given name exists (whatever the email), fails
with 400 "Student is already signed up" when the (activity_name, email)
enrollment already exists, and otherwise appends exactly that
enrollment row and returns the message
"Signed up {email} for {activity_name}". -/
theorem signup_contract (s : DBState) (activity_name email : String) :
    (activityExists s activity_name = false →
      signup_for_activity s activity_name email =
        .error ⟨404, "Activity not found"⟩) ∧
    (activityExists s activity_name = true →
      isEnrolled s activity_name email = true →
      signup_for_activity s activity_name email =
        .error ⟨400, "Student is already signed up"⟩) ∧
    (activityExists s activity_name = true →
      isEnrolled s activity_name email = false →
      signup_for_activity s activity_name email =
        .ok (⟨s.activities, s.participants ++ [⟨activity_name, email⟩]⟩,
             "Signed up " ++ email ++ " for " ++ activity_name)) :=
  ⟨signup_of_absent s activity_name email,
   signup_of_enrolled s activity_name email,
   signup_of_fresh s activity_name email⟩

/-- Witness for C1: the contract instantiated on the demo store in all
three branches. -/
theorem signup_contract_witness :
    signup_for_activity demoState "Robotics" "x@mergington.edu" =
        .error ⟨404, "Activity not found"⟩ ∧
    signup_for_activity demoState "Chess Club" "michael@mergington.edu" =
        .error ⟨400, "Student is already signed up"⟩ ∧
    signup_for_activity demoState "Chess Club" "new@mergington.edu" =
        .ok (⟨demoState.activities,
              demoState.participants ++ [⟨"Chess Club", "new@mergington.edu"⟩]⟩,
             "Signed up new@mergington.edu for Chess Club") :=
  ⟨(signup_contract demoState "Robotics" "x@mergington.edu").1 (by decide),
   (signup_contract demoState "Chess Club" "michael@mergington.edu").2.1
     (by decide) (by decide),
   (signup_contract demoState "Chess Club" "new@mergington.edu").2.2
     (by decide) (by decide)⟩

/-- Claim C2: `unregister_from_activity` fails with 404 "Activity not
found" exactly when the activity name does not exist, fails with 400
"Student is not signed up for this activity" exactly when the activity
exists but the pair is not enrolled, and otherwise deletes the matching
enrollment row and returns "Unregistered {email} from {activity_name}". -/
theorem unregister_contract (s : DBState) (activity_name email : String) :
    (unregister_from_activity s activity_name email =
        .error ⟨404, "Activity not found"⟩ ↔
      activityExists s activity_name = false) ∧
    (unregister_from_activity s activity_name email =
        .error ⟨400, "Student is not signed up for this activity"⟩ ↔
      activityExists s activity_name = true ∧
        isEnrolled s activity_name email = false) ∧
    (activityExists s activity_name = true →
      isEnrolled s activity_name email = true →
      unregister_from_activity s activity_name email =
        .ok (⟨s.activities,
              s.participants.filter fun p =>
                !(p.activity_name == activity_name && p.email == email)⟩,
             "Unregistered " ++ email ++ " from " ++ activity_name)) := by
  by_cases h : activityExists s activity_name = true
  · obtain ⟨a, hf⟩ := Option.ne_none_iff_exists'.mp
      ((activityExists_iff_find s activity_name).mp h)
    refine ⟨?_, ?_, ?_⟩
    · cases he : isEnrolled s activity_name email <;>
        simp [unregister_from_activity, hf, he, h]
    · cases he : isEnrolled s activity_name email <;>
        simp [unregister_from_activity, hf, he, h]
    · intro _ he
      simp [unregister_from_activity, hf, he]
  · have h' : activityExists s activity_name = false := by
      cases hx : activityExists s activity_name
      · rfl
      · exact absurd hx h
    have hnone : findActivity s activity_name = none := by
      by_contra hne
      exact h ((activityExists_iff_find s activity_name).mpr hne)
    refine ⟨?_, ?_, ?_⟩
    · simp [unregister_from_activity, hnone, h']
    · simp [unregister_from_activity, hnone, h']
    · intro hx
      rw [h'] at hx
      exact absurd hx Bool.false_ne_true
  
/-- Witness for C2: the contract instantiated on the demo store in all
three branches. -/
theorem unregister_contract_witness :
    unregister_from_activity demoState "Robotics" "x@mergington.edu" =
        .error ⟨404, "Activity not found"⟩ ∧
    unregister_from_activity demoState "Chess Club" "nobody@mergington.edu" =
        .error ⟨400, "Student is not signed up for this activity"⟩ ∧
    unregister_from_activity demoState "Chess Club" "michael@mergington.edu" =
        .ok (⟨demoState.activities,
              demoState.participants.filter fun p =>
                !(p.activity_name == "Chess Club" &&
                  p.email == "michael@mergington.edu")⟩,
             "Unregistered michael@mergington.edu from Chess Club") :=
  ⟨(unregister_contract demoState "Robotics" "x@mergington.edu").1.mpr
     (by decide),
   (unregister_contract demoState "Chess Club" "nobody@mergington.edu").2.1.mpr
     ⟨by decide, by decide⟩,
   (unregister_contract demoState "Chess Club" "michael@mergington.edu").2.2
     (by decide) (by decide)⟩

/-- Claim C3: `get_activities` returns, keyed by activity name in table
order, a view with the activity's description, schedule and capacity,
whose participants are exactly the emails of the enrollment rows for
that activity in insertion order; the participants list length equals
the count of enrollment rows for that activity. -/
theorem get_activities_contract (s : DBState) :
    ((get_activities s).map Prod.fst = s.activities.map Activity.name) ∧
    (∀ a ∈ s.activities,
      (a.name,
       (⟨a.name, a.description, a.schedule, a.max_participants,
         (s.participants.filter fun p => p.activity_name == a.name).map
           Enrollment.email⟩ : ActivityView)) ∈ get_activities s) ∧
    (∀ pr ∈ get_activities s,
      pr.2.participants.length =
        (s.participants.filter fun p => p.activity_name == pr.1).length) := by
  refine ⟨?_, ?_, ?_⟩
  · simp [get_activities]
  · intro a ha
    simp only [get_activities, List.mem_map]
    exact ⟨a, ha, rfl⟩
  · intro pr hpr
    simp only [get_activities, List.mem_map] at hpr
    obtain ⟨a, _, rfl⟩ := hpr
    simp

/-- Witness for C3: the view of the demo store's single activity is in
the listing with its single enrolled email, with matching lengths. -/
theorem get_activities_contract_witness :
    ("Chess Club",
     (⟨"Chess Club", "chess", "Fridays", 1,
       ["michael@mergington.edu"]⟩ : ActivityView)) ∈
        get_activities demoState ∧
    (["michael@mergington.edu"] : List String).length =
      (demoState.participants.filter fun p =>
        p.activity_name == "Chess Club").length :=
  ⟨(get_activities_contract demoState).2.1
     ⟨"Chess Club", "chess", "Fridays", 1⟩ (by decide),
   (get_activities_contract demoState).2.2
     ("Chess Club",
      ⟨"Chess Club", "chess", "Fridays", 1, ["michael@mergington.edu"]⟩)
     (by decide)⟩

/-- Claim C4: from a state where the activity exists and the pair is
not enrolled, a first signup succeeds, an identical second signup is
rejected with the 400 conflict, and the store after the second call
equals the store after the first (no duplicate row). -/
theorem signup_twice (s : DBState) (activity_name email : String)
    (h : activityExists s activity_name = true)
    (he : isEnrolled s activity_name email = false) :
    signup_for_activity s activity_name email =
      .ok (⟨s.activities, s.participants ++ [⟨activity_name, email⟩]⟩,
           "Signed up " ++ email ++ " for " ++ activity_name) ∧
    signup_for_activity
        ⟨s.activities, s.participants ++ [⟨activity_name, email⟩]⟩
        activity_name email =
      .error ⟨400, "Student is already signed up"⟩ ∧
    runSignup (runSignup s activity_name email) activity_name email =
      runSignup s activity_name email := by
  have h1 := signup_of_fresh s activity_name email h he
  have hex1 : activityExists
      ⟨s.activities, s.participants ++ [⟨activity_name, email⟩]⟩
      activity_name = true := h
  have hen1 : isEnrolled
      ⟨s.activities, s.participants ++ [⟨activity_name, email⟩]⟩
      activity_name email = true := by
    simp [isEnrolled]
  have h2 := signup_of_enrolled _ activity_name email hex1 hen1
  refine ⟨h1, h2, ?_⟩
  rw [show runSignup s activity_name email =
        ⟨s.activities, s.participants ++ [⟨activity_name, email⟩]⟩ from by
      simp [runSignup, h1]]
  simp [runSignup, h2]

/-- Witness for C4: both signup calls on the demo store for a fresh
email behave as the claim states. -/
theorem signup_twice_witness :
    signup_for_activity demoState "Chess Club" "new@mergington.edu" =
      .ok (⟨demoState.activities,
            demoState.participants ++ [⟨"Chess Club", "new@mergington.edu"⟩]⟩,
           "Signed up new@mergington.edu for Chess Club") ∧
    signup_for_activity
        ⟨demoState.activities,
         demoState.participants ++ [⟨"Chess Club", "new@mergington.edu"⟩]⟩
        "Chess Club" "new@mergington.edu" =
      .error ⟨400, "Student is already signed up"⟩ ∧
    runSignup (runSignup demoState "Chess Club" "new@mergington.edu")
        "Chess Club" "new@mergington.edu" =
      runSignup demoState "Chess Club" "new@mergington.edu" :=
  signup_twice demoState "Chess Club" "new@mergington.edu"
    (by decide) (by decide)

/-- Claim C5: from a state where the activity exists and the pair is
not enrolled, signup followed by unregister for that pair succeeds in
both calls and returns the store to exactly its original value, and a
subsequent listing shows no such email under that activity. -/
theorem signup_then_unregister (s : DBState) (activity_name email : String)
    (h : activityExists s activity_name = true)
    (he : isEnrolled s activity_name email = false) :
    signup_for_activity s activity_name email =
      .ok (⟨s.activities, s.participants ++ [⟨activity_name, email⟩]⟩,
           "Signed up " ++ email ++ " for " ++ activity_name) ∧
    unregister_from_activity
        ⟨s.activities, s.participants ++ [⟨activity_name, email⟩]⟩
        activity_name email =
      .ok (s, "Unregistered " ++ email ++ " from " ++ activity_name) ∧
    (∀ pr ∈ get_activities s, pr.1 = activity_name →
      email ∉ pr.2.participants) := by
  have h1 := signup_of_fresh s activity_name email h he
  have hen1 : isEnrolled
      ⟨s.activities, s.participants ++ [⟨activity_name, email⟩]⟩
      activity_name email = true := by
    simp [isEnrolled]
  have h2 := unregister_of_enrolled
    ⟨s.activities, s.participants ++ [⟨activity_name, email⟩]⟩
    activity_name email h hen1
  have he' : ∀ p ∈ s.participants,
      p.activity_name = activity_name → p.email ≠ email := by
    rw [isEnrolled] at he
    simpa using he
  have hkeep : ∀ p ∈ s.participants,
      (!(p.activity_name == activity_name && p.email == email)) = true := by
    intro p hp
    by_cases hn : p.activity_name = activity_name
    · have := he' p hp hn
      simp [hn, this]
    · simp [hn]
  have hfilter :
      ((s.participants ++ [(⟨activity_name, email⟩ : Enrollment)]).filter fun p =>
        !(p.activity_name == activity_name && p.email == email)) =
        s.participants := by
    rw [List.filter_append, List.filter_eq_self.mpr hkeep]
    simp
  refine ⟨h1, ?_, ?_⟩
  · rw [h2, hfilter]
  · intro pr hpr hname hmem
    simp only [get_activities, List.mem_map] at hpr
    obtain ⟨a, ha, rfl⟩ := hpr
    have hname' : a.name = activity_name := hname
    simp only [List.mem_map] at hmem
    obtain ⟨p, hpf, hpe⟩ := hmem
    rw [List.mem_filter] at hpf
    obtain ⟨hp, hpa⟩ := hpf
    have hpa' : p.activity_name = activity_name := by
      have hx : p.activity_name = a.name := by simpa using hpa
      rw [hx]
      exact hname'
    exact he' p hp hpa' hpe

/-- Witness for C5: enrolling and then withdrawing a fresh email on the
demo store restores it and the listing shows no such email. -/
theorem signup_then_unregister_witness :
    signup_for_activity demoState "Chess Club" "new@mergington.edu" =
      .ok (⟨demoState.activities,
            demoState.participants ++ [⟨"Chess Club", "new@mergington.edu"⟩]⟩,
           "Signed up new@mergington.edu for Chess Club") ∧
    unregister_from_activity
        ⟨demoState.activities,
         demoState.participants ++ [⟨"Chess Club", "new@mergington.edu"⟩]⟩
        "Chess Club" "new@mergington.edu" =
      .ok (demoState, "Unregistered new@mergington.edu from Chess Club") ∧
    (∀ pr ∈ get_activities demoState, pr.1 = "Chess Club" →
      "new@mergington.edu" ∉ pr.2.participants) :=
  signup_then_unregister demoState "Chess Club" "new@mergington.edu"
    (by decide) (by decide)

/-- Claim C6: a signup or unregister call that raises an
`HTTPException` (404 or 400) leaves the stored state completely
unchanged: no enrollment row is created or removed and no activity row
is modified. -/
theorem failed_call_state_unchanged (s : DBState) (activity_name email : String) :
    (isErr (signup_for_activity s activity_name email) = true →
      runSignup s activity_name email = s) ∧
    (isErr (unregister_from_activity s activity_name email) = true →
      runUnregister s activity_name email = s) := by
  constructor
  · intro hb
    cases hc : signup_for_activity s activity_name email with
    | error e => simp [runSignup, hc]
    | ok r => rw [hc] at hb; simp [isErr] at hb
  · intro hb
    cases hc : unregister_from_activity s activity_name email with
    | error e => simp [runUnregister, hc]
    | ok r => rw [hc] at hb; simp [isErr] at hb

/-- Witness for C6: a 404 signup and a 400 unregister on the demo
store both leave it unchanged. -/
theorem failed_call_state_unchanged_witness :
    runSignup demoState "Robotics" "x@mergington.edu" = demoState ∧
    runUnregister demoState "Chess Club" "nobody@mergington.edu" = demoState :=
  ⟨(failed_call_state_unchanged demoState "Robotics" "x@mergington.edu").1
     (by decide),
   (failed_call_state_unchanged demoState "Chess Club"
     "nobody@mergington.edu").2 (by decide)⟩

/-- Claim C7: `signup_for_activity` never consults `max_participants`:
even when the activity's enrollment count already reaches or exceeds
its capacity, a fresh signup is accepted. -/
theorem signup_ignores_capacity (s : DBState) (a : Activity) (email : String)
    (ha : a ∈ s.activities)
    (he : isEnrolled s a.name email = false)
    (hfull : a.max_participants ≤
      (s.participants.filter fun p => p.activity_name == a.name).length) :
    signup_for_activity s a.name email =
      .ok (⟨s.activities, s.participants ++ [⟨a.name, email⟩]⟩,
           "Signed up " ++ email ++ " for " ++ a.name) := by
  have h : activityExists s a.name = true := by
    simp only [activityExists, List.any_eq_true]
    exact ⟨a, ha, by simp⟩
  exact signup_of_fresh s a.name email h he

/-- Witness for C7: the demo activity has capacity 1 and already 1
enrollment, yet a new signup succeeds. -/
theorem signup_ignores_capacity_witness :
    signup_for_activity demoState "Chess Club" "new@mergington.edu" =
      .ok (⟨demoState.activities,
            demoState.participants ++ [⟨"Chess Club", "new@mergington.edu"⟩]⟩,
           "Signed up new@mergington.edu for Chess Club") :=
  signup_ignores_capacity demoState ⟨"Chess Club", "chess", "Fridays", 1⟩
    "new@mergington.edu" (by decide) (by decide) (by decide)

/-- The seed fold appends exactly the seed activity rows to the
`activities` table. -/
theorem foldl_seedStep_activities (l : List (Activity × List String))
    (st : DBState) :
    (l.foldl seedStep st).activities = st.activities ++ l.map Prod.fst := by
  induction l generalizing st with
  | nil => simp
  | cons x xs ih =>
    rw [List.foldl_cons, ih]
    simp [seedStep]

/-- Claim C8: `init_db` seeds only when the `activities` table is
empty, so it is idempotent: a second call is the identity on any
non-empty store, and in particular `init_db` twice equals `init_db`
once — no seeded activity or enrollment is duplicated. -/
theorem init_db_idempotent (s : DBState) :
    init_db (init_db s) = init_db s ∧
    (s.activities ≠ [] → init_db s = s) := by
  have hne : ∀ t : DBState, t.activities ≠ [] → init_db t = t := by
    intro t ht
    simp [init_db, List.isEmpty_iff, ht]
  constructor
  · by_cases hs : s.activities = []
    · have hact : (init_db s).activities =
          s.activities ++ seed_activities.map Prod.fst := by
        simp [init_db, hs, foldl_seedStep_activities]
      apply hne
      rw [hact, hs]
      simp [seed_activities]
    · rw [hne s hs]
      exact hne s hs
  · exact hne s

/-- Witness for C8: the non-empty demo store is untouched by `init_db`. -/
theorem init_db_idempotent_witness : init_db demoState = demoState :=
  (init_db_idempotent demoState).2 (by decide)

/-- Appending a row whose pair is absent preserves key uniqueness. -/
theorem nodup_keys_append (ps : List Enrollment) (e : Enrollment)
    (h : (ps.map enrollKey).Nodup)
    (hfresh : (ps.any fun p =>
      p.activity_name == e.activity_name && p.email == e.email) = false) :
    ((ps ++ [e]).map enrollKey).Nodup := by
  rw [List.map_append]
  rw [List.nodup_append]
  refine ⟨h, List.nodup_singleton _, ?_⟩
  intro k hk hk'
  simp only [List.map_cons, List.map_nil, List.mem_singleton] at hk'
  subst hk'
  simp only [List.mem_map] at hk
  obtain ⟨p, hp, hkey⟩ := hk
  have hmatch := List.any_eq_false.mp hfresh p hp
  apply hmatch
  have h1 : p.activity_name = e.activity_name :=
    congrArg Prod.fst hkey
  have h2 : p.email = e.email := congrArg Prod.snd hkey
  simp [h1, h2]

/-- An `INSERT OR IGNORE` statement preserves key uniqueness. -/
theorem nodup_keys_insertOrIgnore (ps : List Enrollment) (e : Enrollment)
    (h : (ps.map enrollKey).Nodup) :
    ((insertOrIgnore ps e).map enrollKey).Nodup := by
  unfold insertOrIgnore
  cases hc : ps.any fun p =>
      p.activity_name == e.activity_name && p.email == e.email with
  | true => simpa using h
  | false =>
    simp only [Bool.false_eq_true, if_false]
    exact nodup_keys_append ps e h hc

/-- A fold of `INSERT OR IGNORE` statements preserves key uniqueness. -/
theorem nodup_keys_foldl_insertOrIgnore (ems : List String) (nm : String)
    (ps : List Enrollment) (h : (ps.map enrollKey).Nodup) :
    (((ems.foldl (fun acc em => insertOrIgnore acc ⟨nm, em⟩) ps)).map
      enrollKey).Nodup := by
  induction ems generalizing ps with
  | nil => exact h
  | cons x xs ih => exact ih _ (nodup_keys_insertOrIgnore ps ⟨nm, x⟩ h)

/-- One seed entry preserves the uniqueness invariant. -/
theorem pairUnique_seedStep (st : DBState) (entry : Activity × List String)
    (h : PairUnique st) : PairUnique (seedStep st entry) :=
  nodup_keys_foldl_insertOrIgnore entry.2 entry.1.name st.participants h

/-- The routine `init_db` preserves the uniqueness invariant. -/
theorem pairUnique_init_db (s : DBState) (h : PairUnique s) :
    PairUnique (init_db s) := by
  unfold init_db
  cases hs : s.activities.isEmpty with
  | false => simpa using h
  | true =>
    simp only [if_true]
    have hfold : ∀ (l : List (Activity × List String)) (st : DBState),
        PairUnique st → PairUnique (l.foldl seedStep st) := by
      intro l
      induction l with
      | nil => intro st hst; exact hst
      | cons x xs ih =>
        intro st hst
        exact ih _ (pairUnique_seedStep st x hst)
    exact hfold seed_activities s h

/-- If signup returns success, the pair was fresh and the new store is
the old one with exactly that row appended. -/
theorem signup_ok_inv (s : DBState) (activity_name email : String)
    (r : DBState × String)
    (h : signup_for_activity s activity_name email = .ok r) :
    isEnrolled s activity_name email = false ∧
      r.1 = ⟨s.activities, s.participants ++ [⟨activity_name, email⟩]⟩ := by
  unfold signup_for_activity at h
  cases hf : findActivity s activity_name with
  | none => rw [hf] at h; exact absurd h (by simp)
  | some a =>
    rw [hf] at h
    cases he : isEnrolled s activity_name email with
    | true => rw [he] at h; simp at h
    | false =>
      rw [he] at h
      simp only [Bool.false_eq_true, if_false, Except.ok.injEq] at h
      exact ⟨rfl, by rw [← h]⟩

/-- If unregister returns success, the pair was enrolled and the new
store is the old one with the matching rows deleted. -/
theorem unregister_ok_inv (s : DBState) (activity_name email : String)
    (r : DBState × String)
    (h : unregister_from_activity s activity_name email = .ok r) :
    isEnrolled s activity_name email = true ∧
      r.1 = ⟨s.activities,
             s.participants.filter fun p =>
               !(p.activity_name == activity_name && p.email == email)⟩ := by
  unfold unregister_from_activity at h
  cases hf : findActivity s activity_name with
  | none => rw [hf] at h; exact absurd h (by simp)
  | some a =>
    rw [hf] at h
    cases he : isEnrolled s activity_name email with
    | false => rw [he] at h; simp at h
    | true =>
      rw [he] at h
      simp only [if_true, Except.ok.injEq] at h
      exact ⟨rfl, by rw [← h]⟩

/-- A signup call preserves the uniqueness invariant. -/
theorem pairUnique_runSignup (s : DBState) (activity_name email : String)
    (h : PairUnique s) : PairUnique (runSignup s activity_name email) := by
  unfold runSignup
  cases hc : signup_for_activity s activity_name email with
  | error e => exact h
  | ok r =>
    obtain ⟨he, hr⟩ := signup_ok_inv s activity_name email r hc
    show PairUnique r.1
    rw [hr]
    exact nodup_keys_append s.participants ⟨activity_name, email⟩ h he

/-- An unregister call preserves the uniqueness invariant. -/
theorem pairUnique_runUnregister (s : DBState) (activity_name email : String)
    (h : PairUnique s) : PairUnique (runUnregister s activity_name email) := by
  unfold runUnregister
  cases hc : unregister_from_activity s activity_name email with
  | error e => exact h
  | ok r =>
    obtain ⟨_, hr⟩ := unregister_ok_inv s activity_name email r hc
    show PairUnique r.1
    rw [hr]
    exact ((List.filter_sublist _).map enrollKey).nodup h

/-- Claim C9: in every reachable store the pair (activity_name, email)
identifies at most one enrollment row — every operation of the service
preserves the UNIQUE(activity_name, email) invariant. -/
theorem reachable_pairUnique (s : DBState) (h : Reachable s) :
    PairUnique s := by
  induction h with
  | empty => simp [PairUnique]
  | init _ ih => exact pairUnique_init_db _ ih
  | signup activity_name email _ ih =>
      exact pairUnique_runSignup _ activity_name email ih
  | unregister activity_name email _ ih =>
      exact pairUnique_runUnregister _ activity_name email ih

/-- Witness for C9: the freshly seeded store satisfies the invariant. -/
theorem reachable_pairUnique_witness : PairUnique (init_db ⟨[], []⟩) :=
  reachable_pairUnique (init_db ⟨[], []⟩) (Reachable.init Reachable.empty)

/-- The delete predicate of unregister keeps exactly the rows that
differ from the deleted (activity_name, email) row. -/
theorem delete_pred_eq_bne (activity_name email : String) (p : Enrollment) :
    (!(p.activity_name == activity_name && p.email == email)) =
      (p != (⟨activity_name, email⟩ : Enrollment)) := by
  obtain ⟨pa, pe⟩ := p
  have hbeq : ((⟨pa, pe⟩ : Enrollment) == ⟨activity_name, email⟩) =
      (pa == activity_name && pe == email) := by
    rw [Bool.eq_iff_iff]
    simp [Enrollment.mk.injEq]
  show (!(pa == activity_name && pe == email)) =
    !((⟨pa, pe⟩ : Enrollment) == ⟨activity_name, email⟩)
  rw [hbeq]

/-- Claim C10: a successful signup changes the store only by appending
the one new enrollment row, and a successful unregister only by
removing the one matching row: the activities table is untouched, every
other enrollment row keeps its multiplicity, the deleted pair is gone,
and under the uniqueness invariant the participants table is exactly
the old one with that single row erased. -/
theorem mutation_frame (s : DBState) (activity_name email : String)
    (q : Enrollment) :
    (∀ r, signup_for_activity s activity_name email = .ok r →
      r.1.activities = s.activities ∧
      r.1.participants = s.participants ++ [⟨activity_name, email⟩]) ∧
    (∀ r, unregister_from_activity s activity_name email = .ok r →
      r.1.activities = s.activities ∧
      (¬(q.activity_name = activity_name ∧ q.email = email) →
        r.1.participants.count q = s.participants.count q) ∧
      r.1.participants.count ⟨activity_name, email⟩ = 0 ∧
      (PairUnique s →
        r.1.participants = s.participants.erase ⟨activity_name, email⟩)) := by
  constructor
  · intro r hr
    obtain ⟨_, h1⟩ := signup_ok_inv s activity_name email r hr
    rw [h1]
    exact ⟨rfl, rfl⟩
  · intro r hr
    obtain ⟨_, h1⟩ := unregister_ok_inv s activity_name email r hr
    rw [h1]
    refine ⟨rfl, ?_, ?_, ?_⟩
    · intro hq
      apply List.count_filter
      by_cases ha : q.activity_name = activity_name
      · have hb : q.email ≠ email := fun hE => hq ⟨ha, hE⟩
        simp [ha, hb]
      · simp [ha]
    · rw [List.count_eq_zero]
      intro hmem
      rw [List.mem_filter] at hmem
      simp at hmem
    · intro hu
      have hnd : s.participants.Nodup := List.Nodup.of_map enrollKey hu
      rw [hnd.erase_eq_filter]
      exact List.filter_congr fun p _ => delete_pred_eq_bne activity_name email p

/-- Witness for C10: the frame property instantiated on the demo store
for a fresh signup and for unregistering the enrolled student, checking
an unrelated row's count. -/
theorem mutation_frame_witness :
    (runSignup demoState "Chess Club" "new@mergington.edu").activities =
        demoState.activities ∧
    (runSignup demoState "Chess Club" "new@mergington.edu").participants =
        demoState.participants ++ [⟨"Chess Club", "new@mergington.edu"⟩] ∧
    (runUnregister demoState "Chess Club"
        "michael@mergington.edu").activities = demoState.activities ∧
    (runUnregister demoState "Chess Club"
          "michael@mergington.edu").participants.count
        ⟨"Art Club", "other@mergington.edu"⟩ =
      demoState.participants.count ⟨"Art Club", "other@mergington.edu"⟩ ∧
    (runUnregister demoState "Chess Club"
          "michael@mergington.edu").participants.count
        ⟨"Chess Club", "michael@mergington.edu"⟩ = 0 ∧
    (runUnregister demoState "Chess Club"
        "michael@mergington.edu").participants =
      demoState.participants.erase ⟨"Chess Club", "michael@mergington.edu"⟩ := by
  have h1 := (mutation_frame demoState "Chess Club" "new@mergington.edu"
      ⟨"Art Club", "other@mergington.edu"⟩).1
    (⟨demoState.activities,
      demoState.participants ++
        [(⟨"Chess Club", "new@mergington.edu"⟩ : Enrollment)]⟩,
     "Signed up new@mergington.edu for Chess Club") rfl
  have h2 := (mutation_frame demoState "Chess Club" "michael@mergington.edu"
      ⟨"Art Club", "other@mergington.edu"⟩).2
    (⟨demoState.activities,
      demoState.participants.filter fun p =>
        !(p.activity_name == "Chess Club" &&
          p.email == "michael@mergington.edu")⟩,
     "Unregistered michael@mergington.edu from Chess Club") rfl
  exact ⟨h1.1, h1.2, h2.1, h2.2.1 (by decide), h2.2.2.1,
    h2.2.2.2 (by
      show (demoState.participants.map fun p =>
        (p.activity_name, p.email)).Nodup
      decide)⟩
